import Mathlib

/-!
# minirent: opendir / readdir / closedir over the Win32 find-file interface

A shallow embedding of `src/minirent.h` (the `MINIRENT_IMPLEMENTATION` part).

* Bytes, UTF-16 code units, handles, pointers and Win32 error codes are natural
  numbers; `errno` and C `int` results are integers.
* A C string argument is the list of bytes found at the pointer; the string
  proper is what precedes the first NUL (`cstr`), the end of the list standing
  for a terminator as well.
* The process state is a `World`: `errno`, the thread's last-error value, the
  heap (live `DIR` objects and live `struct dirent` objects, by address), the
  position of every native enumeration, and the trace of library and native
  calls made so far, oldest first.
* The file system is a `Native` record of oracles: what `MultiByteToWideChar`,
  `FindFirstFileW`, `FindNextFileW` and `FindClose` answer.  Theorems quantify
  over every such record.  `WideCharToMultiByte` is modelled concretely (UTF-16
  to UTF-8), because the bytes it writes are what `readdir` hands back.
* A function returns `none` when the C code aborts: a failed `assert`, or an
  access through a pointer that is not live.  `readdir_traced` is `readdir`
  once more, with the state reached kept when the call aborts, so that the
  calls made by an aborted `readdir` can be stated.
* `calloc` always succeeds (the heap is unbounded) and returns a fresh non-null
  address.
-/

namespace Minirent

/-! ## Constants of the platform headers -/

/-- The value of `MAX_PATH` in `windows.h`. -/
def MAX_PATH : Nat := 260

/-- The value of `INT_MAX` for the 32-bit `int` of the Windows ABI. -/
def INT_MAX : Nat := 2147483647

/-- The null pointer. -/
def NULL : Nat := 0

/-- The value of `INVALID_HANDLE_VALUE`, that is `(HANDLE)-1`, on a 64-bit target. -/
def INVALID_HANDLE_VALUE : Nat := 2 ^ 64 - 1

/-- The `errno.h` code for "no such file or directory". -/
def ENOENT : Int := 2
/-- The `errno.h` code for "invalid argument". -/
def EINVAL : Int := 22
/-- The `errno.h` code for "file name too long". -/
def ENAMETOOLONG : Int := 38
/-- The `errno.h` code for "function not supported". -/
def ENOSYS : Int := 40
/-- The `errno.h` code for "illegal byte sequence". -/
def EILSEQ : Int := 42

/-- The `winerror.h` code `ERROR_FILE_NOT_FOUND`. -/
def ERROR_FILE_NOT_FOUND : Nat := 2
/-- The `winerror.h` code `ERROR_PATH_NOT_FOUND`. -/
def ERROR_PATH_NOT_FOUND : Nat := 3
/-- The `winerror.h` code `ERROR_NO_MORE_FILES`. -/
def ERROR_NO_MORE_FILES : Nat := 18
/-- The `winerror.h` code `ERROR_INVALID_PARAMETER`. -/
def ERROR_INVALID_PARAMETER : Nat := 87
/-- The `winerror.h` code `ERROR_INSUFFICIENT_BUFFER`. -/
def ERROR_INSUFFICIENT_BUFFER : Nat := 122
/-- The `winerror.h` code `ERROR_INVALID_FLAGS`. -/
def ERROR_INVALID_FLAGS : Nat := 1004
/-- The `winerror.h` code `ERROR_NO_UNICODE_TRANSLATION`. -/
def ERROR_NO_UNICODE_TRANSLATION : Nat := 1113

/-! ## Data model -/

/-- The stream object `struct DIR`: the native search handle, the file name of
the most recent native result record (`data.cFileName`), and the pointer to the
lazily allocated entry buffer (`NULL` until the first `readdir`). -/
structure DIR where
  hFind : Nat
  data : List Nat
  dirent : Nat
  deriving DecidableEq, Repr

/-- One call of a library or native function, as recorded in the trace. -/
inductive Call where
  | calloc (p : Nat)
  | free (p : Nat)
  | SetLastError (e : Nat)
  | GetLastError
  | MultiByteToWideChar (src : List Nat)
  | FindFirstFileW (pattern : List Nat)
  | FindNextFileW (h : Nat)
  | FindClose (h : Nat)
  | WideCharToMultiByte (src : List Nat)
  deriving DecidableEq, Repr

/-- The process state seen by the three functions. `dirs p` is the live `DIR` at
address `p`, `dirents p` the `d_name` array of the live `struct dirent` at `p`;
`brk` is the last address handed out by `calloc`; `cursor h` counts the
`FindNextFileW` calls already made on handle `h`. -/
structure World where
  errno : Int
  lastError : Nat
  dirs : Nat → Option DIR
  dirents : Nat → Option (List Nat)
  brk : Nat
  cursor : Nat → Nat
  calls : List Call

/-- A fresh process: nothing allocated, no call made. -/
def World.init : World :=
  { errno := 0, lastError := 0, dirs := fun _ => none, dirents := fun _ => none,
    brk := 0, cursor := fun _ => 0, calls := [] }

/-- What `MultiByteToWideChar` answers: its return value, the wide string it
wrote, and the value `GetLastError` reports after the call. -/
structure MbResult where
  ret : Int
  wide : List Nat
  err : Nat

/-- What `FindFirstFileW` answers: the handle it returns, the file name it put
in the result record, and the value `GetLastError` reports after the call. -/
structure FindFirst where
  handle : Nat
  name : List Nat
  err : Nat

/-- What `FindNextFileW` answers: its `BOOL` result, the file name it put in the
result record, and the value `GetLastError` reports after the call. -/
structure FindNext where
  ok : Bool
  name : List Nat
  err : Nat

/-- What `FindClose` answers: its `BOOL` result and the value `GetLastError`
reports after the call. -/
structure CloseResult where
  ok : Bool
  err : Nat

/-- The native side. `FindNextFileW h k` is the answer to the call number `k`
(counted from 0) on the search handle `h`. -/
structure Native where
  MultiByteToWideChar : List Nat → MbResult
  FindFirstFileW : List Nat → FindFirst
  FindNextFileW : Nat → Nat → FindNext
  FindClose : Nat → CloseResult

/-! ## Strings and the C library -/

/-- The string held by a NUL-terminated array: what precedes the first NUL. -/
def cstr (s : List Nat) : List Nat := s.takeWhile (fun b => b != 0)

/-- The C library `strlen`. -/
def strlen (s : List Nat) : Nat := (cstr s).length

/-- The call `snprintf(buffer, n, "%s\\*", dirpath)`: the return value (the
length of the whole formatted text, terminator not counted, or a negative
number when that length does not fit an `int`) and the string left in `buffer`
(at most `n - 1` bytes of the text). -/
def snprintf (n : Nat) (dirpath : List Nat) : Int × List Nat :=
  let out := cstr dirpath ++ [92, 42]
  (if out.length ≤ INT_MAX then (out.length : Int) else -1, out.take (n - 1))

/-- The call `memset(d_name, 0, sizeof(d_name))`. -/
def memset (size : Nat) : List Nat := List.replicate size 0

/-- The call `calloc(1, sizeof(DIR))`: a fresh zeroed stream object. -/
def calloc_DIR (w : World) : Nat × World :=
  (w.brk + 1,
   { w with
     dirs := Function.update w.dirs (w.brk + 1) (some { hFind := 0, data := [], dirent := NULL })
     brk := w.brk + 1
     calls := w.calls ++ [Call.calloc (w.brk + 1)] })

/-- The call `calloc(1, sizeof(struct dirent))`: a fresh zeroed entry buffer. -/
def calloc_dirent (w : World) : Nat × World :=
  (w.brk + 1,
   { w with
     dirents := Function.update w.dirents (w.brk + 1) (some (List.replicate MAX_PATH 0))
     brk := w.brk + 1
     calls := w.calls ++ [Call.calloc (w.brk + 1)] })

/-- The call `free(dir)` on a stream object. -/
def free_DIR (p : Nat) (w : World) : World :=
  { w with dirs := Function.update w.dirs p none, calls := w.calls ++ [Call.free p] }

/-- The call `free(dirp->dirent)` on an entry buffer. -/
def free_dirent (p : Nat) (w : World) : World :=
  { w with dirents := Function.update w.dirents p none, calls := w.calls ++ [Call.free p] }

/-! ## Native calls -/

/-- The native `SetLastError`. -/
def SetLastError (e : Nat) (w : World) : World :=
  { w with lastError := e, calls := w.calls ++ [Call.SetLastError e] }

/-- The native `GetLastError`: the value read, and the world with the call recorded. -/
def GetLastError (w : World) : Nat × World :=
  (w.lastError, { w with calls := w.calls ++ [Call.GetLastError] })

/-- The UTF-8 encoding of a sequence of UTF-16 code units, as
`WideCharToMultiByte(CP_UTF8, 0, ...)` produces it: a surrogate pair becomes
four bytes, a surrogate that is not part of a pair becomes U+FFFD. -/
def utf8 : List Nat → List Nat
  | [] => []
  | u :: us =>
    if u % 65536 < 128 then (u % 65536) :: utf8 us
    else if u % 65536 < 2048 then
      (192 + u % 65536 / 64) :: (128 + u % 65536 % 64) :: utf8 us
    else if 55296 ≤ u % 65536 ∧ u % 65536 < 56320 then
      match us with
      | [] => [239, 191, 189]
      | v :: vs =>
        if 56320 ≤ v % 65536 ∧ v % 65536 < 57344 then
          (240 + (65536 + (u % 65536 - 55296) * 1024 + (v % 65536 - 56320)) / 262144) ::
          (128 + (65536 + (u % 65536 - 55296) * 1024 + (v % 65536 - 56320)) / 4096 % 64) ::
          (128 + (65536 + (u % 65536 - 55296) * 1024 + (v % 65536 - 56320)) / 64 % 64) ::
          (128 + (65536 + (u % 65536 - 55296) * 1024 + (v % 65536 - 56320)) % 64) :: utf8 vs
        else 239 :: 191 :: 189 :: utf8 (v :: vs)
    else if 56320 ≤ u % 65536 ∧ u % 65536 < 57344 then 239 :: 191 :: 189 :: utf8 us
    else
      (224 + u % 65536 / 4096) :: (128 + u % 65536 / 64 % 64) :: (128 + u % 65536 % 64) :: utf8 us

/-- What `WideCharToMultiByte` answers: its return value, the destination
buffer after the call, and the value `GetLastError` reports after the call. -/
structure WcResult where
  ret : Int
  dst : List Nat
  err : Nat
  deriving DecidableEq, Repr

/-- The native call
`WideCharToMultiByte(CP_UTF8, 0, src, -1, dst, cbMultiByte, NULL, NULL)` on a
NUL-terminated source: the encoded string and its terminator are written at the
start of `dst` and their number is returned; when they do not fit in
`cbMultiByte` bytes the call returns 0 and the last error becomes
`ERROR_INSUFFICIENT_BUFFER`. -/
def WideCharToMultiByte (src dst : List Nat) (cbMultiByte lastError : Nat) : WcResult :=
  let out := utf8 (cstr src) ++ [0]
  if out.length ≤ cbMultiByte then
    { ret := out.length, dst := out ++ dst.drop out.length, err := lastError }
  else
    { ret := 0, dst := out.take cbMultiByte ++ dst.drop cbMultiByte,
      err := ERROR_INSUFFICIENT_BUFFER }

/-! ## The three functions of `minirent.h` -/

/-- The `fail:` label of `opendir`: `if (dir) free(dir); return NULL;`. -/
def opendir_fail (dir : Nat) (w : World) : Nat × World :=
  (NULL, if dir ≠ NULL then free_DIR dir w else w)

/-- The function `opendir` (source lines 73-134). -/
def opendir (env : Native) (dirpath : Option (List Nat)) (w : World) : Option (Nat × World) :=
  match dirpath with
  | none => none
  | some path =>
    if path.headD 0 = 0 then
      some (NULL, { w with errno := ENOENT })
    else
      let fmt := snprintf MAX_PATH path
      if fmt.1 < 1 ∨ fmt.1 ≥ (MAX_PATH : Int) then
        some (NULL, { w with errno := ENAMETOOLONG })
      else
        let a := calloc_DIR w
        let w1 := SetLastError 0 a.2
        let c := env.MultiByteToWideChar fmt.2
        let w2 : World :=
          { w1 with lastError := c.err, calls := w1.calls ++ [Call.MultiByteToWideChar fmt.2] }
        if c.ret < 1 ∨ c.ret > (MAX_PATH : Int) then
          let g := GetLastError w2
          let e : Int :=
            if g.1 = ERROR_INSUFFICIENT_BUFFER then ENAMETOOLONG
            else if g.1 = ERROR_INVALID_FLAGS ∨ g.1 = ERROR_INVALID_PARAMETER then EINVAL
            else if g.1 = ERROR_NO_UNICODE_TRANSLATION then EILSEQ
            else ENOSYS
          some (opendir_fail a.1 { g.2 with errno := e })
        else
          let f := env.FindFirstFileW c.wide
          let w3 : World :=
            { w2 with
              lastError := f.err
              calls := w2.calls ++ [Call.FindFirstFileW c.wide]
              cursor := if f.handle = INVALID_HANDLE_VALUE then w2.cursor
                        else Function.update w2.cursor f.handle 0
              dirs := Function.update w2.dirs a.1
                (some { hFind := f.handle
                        data := if f.handle = INVALID_HANDLE_VALUE then [] else f.name
                        dirent := NULL }) }
          if f.handle = INVALID_HANDLE_VALUE then
            let g := GetLastError w3
            let e : Int :=
              if g.1 = ERROR_FILE_NOT_FOUND ∨ g.1 = ERROR_PATH_NOT_FOUND then ENOENT else ENOSYS
            some (opendir_fail a.1 { g.2 with errno := e })
          else
            some (a.1, w3)

/-- Source lines 154-184 of `readdir`: clear the entry buffer, convert the
current native file name into it, check the conversion with `assert`, return
the buffer. -/
def readdir_convert (dirp : Nat) (w : World) : Option (Nat × World) :=
  match w.dirs dirp with
  | none => none
  | some d =>
    match w.dirents d.dirent with
    | none => none
    | some _ =>
      let w1 := SetLastError 0 { w with dirents := Function.update w.dirents d.dirent (some (memset MAX_PATH)) }
      let c := WideCharToMultiByte d.data (memset MAX_PATH) MAX_PATH w1.lastError
      let w2 : World :=
        { w1 with
          dirents := Function.update w1.dirents d.dirent (some c.dst)
          lastError := c.err
          calls := w1.calls ++ [Call.WideCharToMultiByte d.data] }
      if c.ret > 0 ∧ c.ret ≤ (MAX_PATH : Int) then some (d.dirent, w2) else none

/-- The function `readdir` (source lines 136-185). -/
def readdir (env : Native) (dirp : Nat) (w : World) : Option (Nat × World) :=
  if dirp = NULL then none
  else
    match w.dirs dirp with
    | none => none
    | some d =>
      if d.dirent = NULL then
        let a := calloc_dirent w
        readdir_convert dirp
          { a.2 with dirs := Function.update a.2.dirs dirp (some { d with dirent := a.1 }) }
      else
        let r := env.FindNextFileW d.hFind (w.cursor d.hFind)
        let w1 : World :=
          { w with
            lastError := r.err
            cursor := Function.update w.cursor d.hFind (w.cursor d.hFind + 1)
            calls := w.calls ++ [Call.FindNextFileW d.hFind] }
        if r.ok = false then
          let g := GetLastError w1
          some (NULL, if g.1 ≠ ERROR_NO_MORE_FILES then { g.2 with errno := ENOSYS } else g.2)
        else
          readdir_convert dirp
            { w1 with dirs := Function.update w1.dirs dirp (some { d with data := r.name }) }

/-- The function `closedir` (source lines 187-204). -/
def closedir (env : Native) (dirp : Nat) (w : World) : Option (Int × World) :=
  if dirp = NULL then none
  else
    match w.dirs dirp with
    | none => none
    | some d =>
      let r := env.FindClose d.hFind
      let w1 : World :=
        { w with lastError := r.err, calls := w.calls ++ [Call.FindClose d.hFind] }
      if r.ok = false then
        some (-1, { w1 with errno := ENOSYS })
      else
        let w2 := if d.dirent ≠ NULL then free_dirent d.dirent w1 else w1
        some (0, free_DIR dirp w2)

/-! ## `readdir` with the state kept when it aborts -/

/-- How a call of `readdir` ends: it returns a pointer, or it aborts (a failed
`assert`, an access through a pointer that is not live). The state reached,
with the trace of the calls made up to that point, is kept in both cases. -/
inductive Outcome where
  | returned (p : Nat) (w : World)
  | aborted (w : World)

/-- The state a call has reached when it ends. -/
def Outcome.world : Outcome → World
  | Outcome.returned _ w => w
  | Outcome.aborted w => w

/-- The result of a call for its caller: nothing when the call aborts. -/
def Outcome.toOption : Outcome → Option (Nat × World)
  | Outcome.returned p w => some (p, w)
  | Outcome.aborted _ => none

/-- Source lines 154-184 of `readdir`, as `readdir_convert`, with the state
kept when the `assert` of line 161 fails. -/
def readdir_convert_traced (dirp : Nat) (w : World) : Outcome :=
  match w.dirs dirp with
  | none => Outcome.aborted w
  | some d =>
    match w.dirents d.dirent with
    | none => Outcome.aborted w
    | some _ =>
      let w1 := SetLastError 0 { w with dirents := Function.update w.dirents d.dirent (some (memset MAX_PATH)) }
      let c := WideCharToMultiByte d.data (memset MAX_PATH) MAX_PATH w1.lastError
      let w2 : World :=
        { w1 with
          dirents := Function.update w1.dirents d.dirent (some c.dst)
          lastError := c.err
          calls := w1.calls ++ [Call.WideCharToMultiByte d.data] }
      if c.ret > 0 ∧ c.ret ≤ (MAX_PATH : Int) then Outcome.returned d.dirent w2
      else Outcome.aborted w2

/-- The function `readdir` (source lines 136-185), as `readdir`, with the state
kept when the call aborts. -/
def readdir_traced (env : Native) (dirp : Nat) (w : World) : Outcome :=
  if dirp = NULL then Outcome.aborted w
  else
    match w.dirs dirp with
    | none => Outcome.aborted w
    | some d =>
      if d.dirent = NULL then
        let a := calloc_dirent w
        readdir_convert_traced dirp
          { a.2 with dirs := Function.update a.2.dirs dirp (some { d with dirent := a.1 }) }
      else
        let r := env.FindNextFileW d.hFind (w.cursor d.hFind)
        let w1 : World :=
          { w with
            lastError := r.err
            cursor := Function.update w.cursor d.hFind (w.cursor d.hFind + 1)
            calls := w.calls ++ [Call.FindNextFileW d.hFind] }
        if r.ok = false then
          let g := GetLastError w1
          Outcome.returned NULL
            (if g.1 ≠ ERROR_NO_MORE_FILES then { g.2 with errno := ENOSYS } else g.2)
        else
          readdir_convert_traced dirp
            { w1 with dirs := Function.update w1.dirs dirp (some { d with data := r.name }) }

/-! ## Vocabulary of the statements -/

/-- What `MultiByteToWideChar` answers for the search pattern `opendir` builds
from `path`. -/
def convertedPattern (env : Native) (path : List Nat) : MbResult :=
  env.MultiByteToWideChar (snprintf MAX_PATH path).2

/-- What `FindFirstFileW` answers for the converted search pattern of `path`. -/
def findFirst (env : Native) (path : List Nat) : FindFirst :=
  env.FindFirstFileW (convertedPattern env path).wide

/-- The `d_name` array that holds the conversion of a native file name: the
UTF-8 bytes of the name, then NUL bytes up to `MAX_PATH`. -/
def entryBuffer (name : List Nat) : List Nat :=
  utf8 (cstr name) ++ List.replicate (MAX_PATH - (utf8 (cstr name)).length) 0

/-- From call number `k` on, `FindNextFileW` on handle `h` succeeds with the
names of `names`, one per call and in that order, and then fails with
`ERROR_NO_MORE_FILES`. -/
def yields (env : Native) (h : Nat) : Nat → List (List Nat) → Bool
  | k, [] => !(env.FindNextFileW h k).ok && (env.FindNextFileW h k).err == ERROR_NO_MORE_FILES
  | k, e :: es =>
    (env.FindNextFileW h k).ok && (env.FindNextFileW h k).name == e && yields env h (k + 1) es

/-- A caller that calls `readdir` on the same stream `k` times in a row and
notes, after each call, `none` for a `NULL` result and otherwise the `d_name`
array of the entry returned, as it is when the call returns. It aborts when a
call aborts. -/
def readdirNames (env : Native) (dirp : Nat) :
    Nat → World → Option (List (Option (List Nat)) × World)
  | 0, w => some ([], w)
  | k + 1, w =>
    match readdir env dirp w with
    | none => none
    | some r =>
      match readdirNames env dirp k r.2 with
      | none => none
      | some rs =>
        some ((if r.1 = NULL then none else some ((r.2.dirents r.1).getD [])) :: rs.1, rs.2)

/-! ## Worked native sides and states -/

/-- The `winerror.h` code `ERROR_INVALID_HANDLE`. -/
def ERROR_INVALID_HANDLE : Nat := 6

/-- A directory for worked examples. The (ASCII) pattern converts unit for
byte; every search opens handle 7 on the name `first`, then yields the names of
`rest` and reports `ERROR_NO_MORE_FILES`; `FindClose` answers `closeOk`. -/
def exampleNative (first : List Nat) (rest : List (List Nat)) (closeOk : Bool) : Native :=
  { MultiByteToWideChar := fun s =>
      { ret := ((cstr s).length + 1 : Nat), wide := cstr s, err := 0 }
    FindFirstFileW := fun _ => { handle := 7, name := first, err := 0 }
    FindNextFileW := fun _ k =>
      match rest.get? k with
      | some e => { ok := true, name := e, err := 0 }
      | none => { ok := false, name := [], err := ERROR_NO_MORE_FILES }
    FindClose := fun _ =>
      { ok := closeOk, err := if closeOk then 0 else ERROR_INVALID_HANDLE } }

/-- A native side on which the pattern converts and `FindFirstFileW` fails with
the error `err`. -/
def missingNative (err : Nat) : Native :=
  { MultiByteToWideChar := fun s =>
      { ret := ((cstr s).length + 1 : Nat), wide := cstr s, err := 0 }
    FindFirstFileW := fun _ => { handle := INVALID_HANDLE_VALUE, name := [], err := err }
    FindNextFileW := fun _ _ => { ok := false, name := [], err := ERROR_INVALID_HANDLE }
    FindClose := fun _ => { ok := false, err := ERROR_INVALID_HANDLE } }

/-- A native side on which the conversion of the pattern fails with the error
`err`. -/
def unconvertibleNative (err : Nat) : Native :=
  { MultiByteToWideChar := fun _ => { ret := 0, wide := [], err := err }
    FindFirstFileW := fun _ => { handle := 7, name := [46], err := 0 }
    FindNextFileW := fun _ _ => { ok := false, name := [], err := ERROR_NO_MORE_FILES }
    FindClose := fun _ => { ok := true, err := 0 } }

/-- A file name of 87 CJK characters (U+4E2D): 87 UTF-16 code units, 261 bytes
of UTF-8. -/
def longName : List Nat := List.replicate 87 20013

/-- The state `opendir` leaves when it opens `"."` from a fresh process on
`exampleNative first rest closeOk`. -/
def openedWorld (first : List Nat) : World :=
  { errno := 0
    lastError := 0
    dirs := Function.update
      (Function.update (fun _ => none) 1 (some { hFind := 0, data := [], dirent := NULL }))
      1 (some { hFind := 7, data := first, dirent := NULL })
    dirents := fun _ => none
    brk := 1
    cursor := Function.update (fun _ => 0) 7 0
    calls := [Call.calloc 1, Call.SetLastError 0, Call.MultiByteToWideChar [46, 92, 42],
              Call.FindFirstFileW [46, 92, 42]] }

/-- A state in which the stream at address 1 (handle 7) has already surfaced
the entry `previous` through its entry buffer at address 2. -/
def surfacedWorld (previous : List Nat) : World :=
  { errno := 0
    lastError := 0
    dirs := Function.update (fun _ => none) 1 (some { hFind := 7, data := previous, dirent := 2 })
    dirents := Function.update (fun _ => none) 2 (some (entryBuffer previous))
    brk := 2
    cursor := fun _ => 0
    calls := [] }

/-- A whole session on a directory whose handle cannot be released: open `"."`,
read one entry, close. The result is what `closedir` returns and the state it
leaves. -/
def leakingSession : Option (Int × World) :=
  (opendir (exampleNative [46] [] false) (some [46]) World.init).bind fun r =>
    (readdir (exampleNative [46] [] false) r.1 r.2).bind fun s =>
      closedir (exampleNative [46] [] false) r.1 s.2

/-! ## Auxiliary facts -/

theorem cstr_eq_nil_iff (path : List Nat) : cstr path = [] ↔ path.headD 0 = 0 := by
  cases path with
  | nil => simp [cstr]
  | cons b t =>
    by_cases hb : b = 0
    · simp [cstr, List.takeWhile_cons, hb]
    · simp [cstr, List.takeWhile_cons, hb]

theorem snprintf_check (path : List Nat) :
    ((snprintf MAX_PATH path).1 < 1 ∨ (snprintf MAX_PATH path).1 ≥ (MAX_PATH : Int)) ↔
      258 ≤ strlen path := by
  unfold snprintf strlen MAX_PATH INT_MAX
  simp only [List.length_append, List.length_cons, List.length_nil]
  split_ifs with h
  · constructor
    · intro h1
      rcases h1 with h1 | h1 <;> omega
    · intro h1
      right
      omega
  · constructor
    · intro _
      omega
    · intro _
      left
      omega

theorem opendir_empty_eq (env : Native) (path : List Nat) (w : World)
    (hempty : cstr path = []) :
    opendir env (some path) w = some (NULL, { w with errno := ENOENT }) := by
  have h0 : path.headD 0 = 0 := (cstr_eq_nil_iff path).1 hempty
  show (if path.headD 0 = 0 then _ else _) = _
  rw [if_pos h0]

theorem opendir_too_long_eq (env : Native) (path : List Nat) (w : World)
    (hne : cstr path ≠ []) (hlong : 258 ≤ strlen path) :
    opendir env (some path) w = some (NULL, { w with errno := ENAMETOOLONG }) := by
  have h0 : ¬ path.headD 0 = 0 := fun h => hne ((cstr_eq_nil_iff path).2 h)
  have h1 := (snprintf_check path).2 hlong
  simp only [opendir, h0, h1, if_true, if_false]

theorem opendir_unfold (env : Native) (path : List Nat) (w : World)
    (hne : cstr path ≠ []) (hfit : strlen path < 258) :
    opendir env (some path) w =
      (let fmt := snprintf MAX_PATH path
       let a := calloc_DIR w
       let w1 := SetLastError 0 a.2
       let c := env.MultiByteToWideChar fmt.2
       let w2 : World :=
         { w1 with lastError := c.err, calls := w1.calls ++ [Call.MultiByteToWideChar fmt.2] }
       if c.ret < 1 ∨ c.ret > (MAX_PATH : Int) then
         let g := GetLastError w2
         let e : Int :=
           if g.1 = ERROR_INSUFFICIENT_BUFFER then ENAMETOOLONG
           else if g.1 = ERROR_INVALID_FLAGS ∨ g.1 = ERROR_INVALID_PARAMETER then EINVAL
           else if g.1 = ERROR_NO_UNICODE_TRANSLATION then EILSEQ
           else ENOSYS
         some (opendir_fail a.1 { g.2 with errno := e })
       else
         let f := env.FindFirstFileW c.wide
         let w3 : World :=
           { w2 with
             lastError := f.err
             calls := w2.calls ++ [Call.FindFirstFileW c.wide]
             cursor := if f.handle = INVALID_HANDLE_VALUE then w2.cursor
                       else Function.update w2.cursor f.handle 0
             dirs := Function.update w2.dirs a.1
               (some { hFind := f.handle
                       data := if f.handle = INVALID_HANDLE_VALUE then [] else f.name
                       dirent := NULL }) }
         if f.handle = INVALID_HANDLE_VALUE then
           let g := GetLastError w3
           let e : Int :=
             if g.1 = ERROR_FILE_NOT_FOUND ∨ g.1 = ERROR_PATH_NOT_FOUND then ENOENT else ENOSYS
           some (opendir_fail a.1 { g.2 with errno := e })
         else
           some (a.1, w3)) := by
  have h0 : ¬ path.headD 0 = 0 := fun h => hne ((cstr_eq_nil_iff path).2 h)
  have h1 : ¬ ((snprintf MAX_PATH path).1 < 1 ∨
      (snprintf MAX_PATH path).1 ≥ (MAX_PATH : Int)) := by
    rw [snprintf_check]; omega
  simp only [opendir, h0, h1, if_false]

theorem opendir_calls_grow (env : Native) (path : List Nat) (w : World)
    (hne : cstr path ≠ []) (hfit : strlen path < 258) (p : Nat) (w' : World)
    (h : opendir env (some path) w = some (p, w')) :
    ∃ l, w'.calls = w.calls ++ Call.calloc (w.brk + 1) :: l := by
  rw [opendir_unfold env path w hne hfit] at h
  simp only [calloc_DIR, SetLastError, GetLastError, opendir_fail, free_DIR] at h
  split_ifs at h <;> simp at h <;> obtain ⟨-, rfl⟩ := h <;> simp

theorem opendir_success_inv (env : Native) (path : List Nat) (w : World) (p : Nat) (w0 : World)
    (hopen : opendir env (some path) w = some (p, w0)) (hp : p ≠ NULL) :
    p = w.brk + 1 ∧ (findFirst env path).handle ≠ INVALID_HANDLE_VALUE ∧
    w0 = { w with
            lastError := (findFirst env path).err
            calls := w.calls ++
              [Call.calloc (w.brk + 1), Call.SetLastError 0,
               Call.MultiByteToWideChar (snprintf MAX_PATH path).2,
               Call.FindFirstFileW (convertedPattern env path).wide]
            cursor := Function.update w.cursor (findFirst env path).handle 0
            brk := w.brk + 1
            dirs := Function.update w.dirs (w.brk + 1)
              (some { hFind := (findFirst env path).handle
                      data := (findFirst env path).name
                      dirent := NULL }) } := by
  by_cases hne : cstr path = []
  · rw [opendir_empty_eq env path w hne] at hopen
    simp only [Option.some.injEq, Prod.mk.injEq] at hopen
    exact absurd hopen.1.symm hp
  by_cases hfit : strlen path < 258
  · rw [opendir_unfold env path w hne hfit] at hopen
    simp only [opendir_fail] at hopen
    split_ifs at hopen with h1
    all_goals simp only [Option.some.injEq, Prod.mk.injEq] at hopen
    all_goals first
      | exact absurd hopen.1.symm hp
      | skip
    rename_i h2
    obtain ⟨rfl, rfl⟩ := hopen
    refine ⟨rfl, h2, ?_⟩
    simp [calloc_DIR, SetLastError, findFirst, convertedPattern, h2]
  · rw [opendir_too_long_eq env path w hne (by omega)] at hopen
    simp only [Option.some.injEq, Prod.mk.injEq] at hopen
    exact absurd hopen.1.symm hp

theorem WideCharToMultiByte_fits (src : List Nat) (e : Nat)
    (h : (utf8 (cstr src)).length < MAX_PATH) :
    WideCharToMultiByte src (memset MAX_PATH) MAX_PATH e =
      { ret := ((utf8 (cstr src)).length + 1 : Nat), dst := entryBuffer src, err := e } := by
  unfold WideCharToMultiByte entryBuffer memset
  have h1 : (utf8 (cstr src) ++ [0]).length ≤ MAX_PATH := by
    simp only [List.length_append, List.length_cons, List.length_nil]; omega
  simp only [h1, if_true]
  have h2 : MAX_PATH - (utf8 (cstr src)).length
      = (MAX_PATH - (utf8 (cstr src) ++ [0]).length) + 1 := by
    simp only [List.length_append, List.length_cons, List.length_nil]; omega
  rw [h2, List.drop_replicate, List.replicate_succ]
  simp

theorem WideCharToMultiByte_overflow (src : List Nat) (dst : List Nat) (e : Nat)
    (h : ¬ (utf8 (cstr src)).length < MAX_PATH) :
    (WideCharToMultiByte src dst MAX_PATH e).ret = 0 := by
  unfold WideCharToMultiByte
  have h1 : ¬ (utf8 (cstr src) ++ [0]).length ≤ MAX_PATH := by
    simp only [List.length_append, List.length_cons, List.length_nil]; omega
  simp only [h1, if_false]

theorem readdir_convert_fits (dirp : Nat) (w : World) (d : DIR) (old : List Nat)
    (hd : w.dirs dirp = some d) (hb : w.dirents d.dirent = some old)
    (hfit : (utf8 (cstr d.data)).length < MAX_PATH) :
    readdir_convert dirp w = some (d.dirent,
      { w with
        dirents := Function.update w.dirents d.dirent (some (entryBuffer d.data))
        lastError := 0
        calls := w.calls ++ [Call.SetLastError 0, Call.WideCharToMultiByte d.data] }) := by
  unfold readdir_convert
  rw [hd]
  simp only [hb, SetLastError]
  rw [WideCharToMultiByte_fits d.data 0 hfit]
  have h1 : ((((utf8 (cstr d.data)).length + 1 : Nat) : Int) > 0 ∧
      (((utf8 (cstr d.data)).length + 1 : Nat) : Int) ≤ (MAX_PATH : Int)) := by
    constructor <;> omega
  simp only [h1, and_self, if_true, Function.update_idem, List.append_assoc,
    List.singleton_append]

theorem readdir_convert_overflow (dirp : Nat) (w : World) (d : DIR)
    (hd : w.dirs dirp = some d)
    (hfit : ¬ (utf8 (cstr d.data)).length < MAX_PATH) :
    readdir_convert dirp w = none := by
  unfold readdir_convert
  rw [hd]
  cases hb : w.dirents d.dirent with
  | none => simp only [hb]
  | some old =>
    simp only [hb, WideCharToMultiByte_overflow d.data _ _ hfit]
    simp

theorem readdir_first (env : Native) (dirp : Nat) (w : World) (d : DIR)
    (hp : dirp ≠ NULL) (hd : w.dirs dirp = some d) (hq : d.dirent = NULL)
    (hfit : (utf8 (cstr d.data)).length < MAX_PATH) :
    readdir env dirp w = some (w.brk + 1,
      { w with
        dirs := Function.update w.dirs dirp (some { d with dirent := w.brk + 1 })
        dirents := Function.update w.dirents (w.brk + 1) (some (entryBuffer d.data))
        brk := w.brk + 1
        lastError := 0
        calls := w.calls ++
          [Call.calloc (w.brk + 1), Call.SetLastError 0, Call.WideCharToMultiByte d.data] }) := by
  unfold readdir
  rw [if_neg hp, hd]
  simp only [hq, if_true, calloc_dirent]
  rw [readdir_convert_fits dirp _ { d with dirent := w.brk + 1 } (List.replicate MAX_PATH 0)
    (by simp) (by simp) hfit]
  simp

theorem readdir_later (env : Native) (dirp : Nat) (w : World) (d : DIR) (old : List Nat)
    (hp : dirp ≠ NULL) (hd : w.dirs dirp = some d) (hq : d.dirent ≠ NULL)
    (hb : w.dirents d.dirent = some old)
    (hok : (env.FindNextFileW d.hFind (w.cursor d.hFind)).ok = true)
    (hfit : (utf8 (cstr (env.FindNextFileW d.hFind (w.cursor d.hFind)).name)).length
      < MAX_PATH) :
    readdir env dirp w = some (d.dirent,
      { w with
        dirs := Function.update w.dirs dirp
          (some { d with data := (env.FindNextFileW d.hFind (w.cursor d.hFind)).name })
        dirents := Function.update w.dirents d.dirent
          (some (entryBuffer (env.FindNextFileW d.hFind (w.cursor d.hFind)).name))
        cursor := Function.update w.cursor d.hFind (w.cursor d.hFind + 1)
        lastError := 0
        calls := w.calls ++
          [Call.FindNextFileW d.hFind, Call.SetLastError 0,
           Call.WideCharToMultiByte (env.FindNextFileW d.hFind (w.cursor d.hFind)).name] }) := by
  unfold readdir
  rw [if_neg hp, hd]
  simp only [if_neg hq, hok, Bool.true_eq_false, if_false]
  rw [readdir_convert_fits dirp _
    { d with data := (env.FindNextFileW d.hFind (w.cursor d.hFind)).name } old
    (by simp) (by simpa using hb) hfit]
  simp

theorem readdir_exhausted (env : Native) (dirp : Nat) (w : World) (d : DIR)
    (hp : dirp ≠ NULL) (hd : w.dirs dirp = some d) (hq : d.dirent ≠ NULL)
    (hfail : (env.FindNextFileW d.hFind (w.cursor d.hFind)).ok = false) :
    readdir env dirp w = some (NULL,
      { w with
        errno := if (env.FindNextFileW d.hFind (w.cursor d.hFind)).err ≠ ERROR_NO_MORE_FILES
                 then ENOSYS else w.errno
        lastError := (env.FindNextFileW d.hFind (w.cursor d.hFind)).err
        cursor := Function.update w.cursor d.hFind (w.cursor d.hFind + 1)
        calls := w.calls ++ [Call.FindNextFileW d.hFind, Call.GetLastError] }) := by
  unfold readdir
  rw [if_neg hp, hd]
  simp only [if_neg hq, hfail, if_true, GetLastError]
  by_cases h : (env.FindNextFileW d.hFind (w.cursor d.hFind)).err = ERROR_NO_MORE_FILES <;>
    simp [h]

theorem utf8_ascii : ∀ (e : List Nat), (∀ u ∈ e, u < 128) → utf8 e = e
  | [], _ => by simp [utf8]
  | u :: us, h => by
    have hu : u < 128 := h u (List.mem_cons_self u us)
    have hm : u % 65536 = u := Nat.mod_eq_of_lt (by omega)
    have ih := utf8_ascii us (fun x hx => h x (List.mem_cons_of_mem u hx))
    rw [utf8.eq_def]
    simp only [hm, hu, if_true, ih]

theorem entryBuffer_ascii (name : List Nat) (hascii : ∀ u ∈ cstr name, u < 128)
    (hlen : (cstr name).length < MAX_PATH) :
    entryBuffer name =
      cstr name ++ 0 :: List.replicate (MAX_PATH - 1 - (cstr name).length) 0 := by
  unfold entryBuffer
  rw [utf8_ascii (cstr name) hascii]
  have h : MAX_PATH - (cstr name).length = (MAX_PATH - 1 - (cstr name).length) + 1 := by
    omega
  rw [h, List.replicate_succ]

theorem readdir_convert_traced_toOption (dirp : Nat) (w : World) :
    (readdir_convert_traced dirp w).toOption = readdir_convert dirp w := by
  unfold readdir_convert_traced readdir_convert
  cases hd : w.dirs dirp with
  | none => rfl
  | some d =>
    simp only []
    cases hb : w.dirents d.dirent with
    | none => rfl
    | some old =>
      simp only []
      split_ifs <;> rfl

theorem readdir_traced_toOption (env : Native) (dirp : Nat) (w : World) :
    (readdir_traced env dirp w).toOption = readdir env dirp w := by
  unfold readdir_traced readdir
  by_cases hp : dirp = NULL
  · rw [if_pos hp, if_pos hp]; rfl
  · rw [if_neg hp, if_neg hp]
    cases hd : w.dirs dirp with
    | none => rfl
    | some d =>
      simp only []
      split_ifs
      all_goals first
        | exact readdir_convert_traced_toOption _ _
        | rfl

theorem readdir_convert_traced_calls (dirp : Nat) (w : World) (d : DIR) (old : List Nat)
    (hd : w.dirs dirp = some d) (hb : w.dirents d.dirent = some old) :
    (readdir_convert_traced dirp w).world.calls =
      w.calls ++ [Call.SetLastError 0, Call.WideCharToMultiByte d.data] := by
  unfold readdir_convert_traced
  rw [hd]
  simp only [hb, SetLastError]
  split_ifs <;> simp [Outcome.world]

theorem readdir_traced_first_calls (env : Native) (dirp : Nat) (w : World) (d : DIR)
    (hp : dirp ≠ NULL) (hd : w.dirs dirp = some d) (hq : d.dirent = NULL) :
    (readdir_traced env dirp w).world.calls =
      w.calls ++
        [Call.calloc (w.brk + 1), Call.SetLastError 0, Call.WideCharToMultiByte d.data] := by
  unfold readdir_traced
  rw [if_neg hp, hd]
  simp only [hq, if_true, calloc_dirent]
  rw [readdir_convert_traced_calls dirp _ { d with dirent := w.brk + 1 }
    (List.replicate MAX_PATH 0) (by simp) (by simp)]
  simp

theorem readdir_traced_later_calls (env : Native) (dirp : Nat) (w : World) (d : DIR)
    (old : List Nat)
    (hp : dirp ≠ NULL) (hd : w.dirs dirp = some d) (hq : d.dirent ≠ NULL)
    (hb : w.dirents d.dirent = some old) :
    (readdir_traced env dirp w).world.calls =
      w.calls ++ Call.FindNextFileW d.hFind ::
        (if (env.FindNextFileW d.hFind (w.cursor d.hFind)).ok = true then
           [Call.SetLastError 0,
            Call.WideCharToMultiByte (env.FindNextFileW d.hFind (w.cursor d.hFind)).name]
         else [Call.GetLastError]) := by
  unfold readdir_traced
  rw [if_neg hp, hd]
  cases hok : (env.FindNextFileW d.hFind (w.cursor d.hFind)).ok
  · simp only [if_neg hq, hok, if_true, GetLastError]
    by_cases h : (env.FindNextFileW d.hFind (w.cursor d.hFind)).err = ERROR_NO_MORE_FILES <;>
      simp [h, Outcome.world]
  · simp only [if_neg hq, hok, Bool.true_eq_false, if_false]
    rw [readdir_convert_traced_calls dirp _
      { d with data := (env.FindNextFileW d.hFind (w.cursor d.hFind)).name } old
      (by simp) (by simpa using hb)]
    simp

theorem readdirNames_drain (env : Native) (p : Nat) (hp : p ≠ NULL) :
    ∀ (rest : List (List Nat)) (w : World) (d : DIR) (old : List Nat),
      w.dirs p = some d → d.dirent ≠ NULL → w.dirents d.dirent = some old →
      yields env d.hFind (w.cursor d.hFind) rest = true →
      (∀ e ∈ rest, (utf8 (cstr e)).length < MAX_PATH) →
      ∃ w', readdirNames env p (rest.length + 1) w =
          some (rest.map (fun e => some (entryBuffer e)) ++ [none], w') ∧
        w'.errno = w.errno := by
  intro rest
  induction rest with
  | nil =>
    intro w d old hd hq _ hy _
    simp only [yields, Bool.and_eq_true, Bool.not_eq_true', beq_iff_eq] at hy
    have hr := readdir_exhausted env p w d hp hd hq hy.1
    refine ⟨{ w with
        errno := if (env.FindNextFileW d.hFind (w.cursor d.hFind)).err ≠ ERROR_NO_MORE_FILES
                 then ENOSYS else w.errno
        lastError := (env.FindNextFileW d.hFind (w.cursor d.hFind)).err
        cursor := Function.update w.cursor d.hFind (w.cursor d.hFind + 1)
        calls := w.calls ++ [Call.FindNextFileW d.hFind, Call.GetLastError] }, ?_, ?_⟩
    · simp only [readdirNames, hr, List.length_nil, List.map_nil, List.nil_append]
      simp
    · simp [hy.2]
  | cons e es ih =>
    intro w d old hd hq hb hy hfit
    simp only [yields, Bool.and_eq_true, beq_iff_eq] at hy
    obtain ⟨⟨hok, hname⟩, hys⟩ := hy
    have hfe : (utf8 (cstr (env.FindNextFileW d.hFind (w.cursor d.hFind)).name)).length
        < MAX_PATH := by
      rw [hname]; exact hfit e (List.mem_cons_self e es)
    have hr := readdir_later env p w d old hp hd hq hb hok hfe
    rw [hname] at hr
    obtain ⟨w', hn, he⟩ := ih
      { w with
        dirs := Function.update w.dirs p (some { d with data := e })
        dirents := Function.update w.dirents d.dirent (some (entryBuffer e))
        cursor := Function.update w.cursor d.hFind (w.cursor d.hFind + 1)
        lastError := 0
        calls := w.calls ++
          [Call.FindNextFileW d.hFind, Call.SetLastError 0, Call.WideCharToMultiByte e] }
      { d with data := e } (entryBuffer e)
      (by simp) hq (by simp) (by simpa using hys)
      (fun x hx => hfit x (List.mem_cons_of_mem e hx))
    refine ⟨w', ?_, he⟩
    simp only [List.length_cons] at hn ⊢
    rw [readdirNames, hr]
    simp only [hn]
    simp [hq]

/-! ## The claims -/

set_option maxRecDepth 100000

/-- Claim C1 (amended): after a successful `opendir`, when the native
enumeration yields `e1` (from `FindFirstFileW`), then the names of `rest` (from
successive successful `FindNextFileW` calls), then `ERROR_NO_MORE_FILES`, and
the UTF-8 conversion of every one of these names is shorter than `MAX_PATH`
bytes, `rest.length + 2` calls of `readdir` in a row all return: the first
`rest.length + 1` return entries whose `d_name` arrays hold the conversions of
`e1` and of the names of `rest`, in that order, and the last returns `NULL`,
with `errno` as `opendir` left it. -/
theorem readdir_enumerates (env : Native) (path : List Nat) (w : World) (p : Nat) (w0 : World)
    (e1 : List Nat) (rest : List (List Nat))
    (hopen : opendir env (some path) w = some (p, w0)) (hp : p ≠ NULL)
    (hfirst : (findFirst env path).name = e1)
    (hrest : yields env (findFirst env path).handle 0 rest = true)
    (hfit : ∀ e ∈ e1 :: rest, (utf8 (cstr e)).length < MAX_PATH) :
    ∃ w', readdirNames env p (rest.length + 2) w0 =
        some ((e1 :: rest).map (fun e => some (entryBuffer e)) ++ [none], w') ∧
      w'.errno = w0.errno := by
  obtain ⟨hpe, -, hw0⟩ := opendir_success_inv env path w p w0 hopen hp
  have hd : w0.dirs p =
      some { hFind := (findFirst env path).handle, data := e1, dirent := NULL } := by
    rw [hw0, hpe, hfirst]; simp
  have hr := readdir_first env p w0 _ hp hd rfl (hfit e1 (List.mem_cons_self e1 rest))
  obtain ⟨w', hn, he⟩ := readdirNames_drain env p hp rest
    { w0 with
      dirs := Function.update w0.dirs p
        (some { hFind := (findFirst env path).handle, data := e1, dirent := w0.brk + 1 })
      dirents := Function.update w0.dirents (w0.brk + 1) (some (entryBuffer e1))
      brk := w0.brk + 1
      lastError := 0
      calls := w0.calls ++
        [Call.calloc (w0.brk + 1), Call.SetLastError 0, Call.WideCharToMultiByte e1] }
    { hFind := (findFirst env path).handle, data := e1, dirent := w0.brk + 1 } (entryBuffer e1)
    (by simp) (by simp [NULL]) (by simp)
    (by
      have hc : w0.cursor (findFirst env path).handle = 0 := by rw [hw0]; simp
      simpa [hc] using hrest)
    (fun x hx => hfit x (List.mem_cons_of_mem e1 hx))
  refine ⟨w', ?_, he⟩
  rw [readdirNames, hr]
  simp only [hn]
  simp [NULL]

/-- Witness of C1: a directory that yields ".", "..", "a". -/
theorem readdir_enumerates_witness :
    opendir (exampleNative [46] [[46, 46], [97]] true) (some [46]) World.init =
        some (1, openedWorld [46]) ∧
      (1 : Nat) ≠ NULL ∧
      yields (exampleNative [46] [[46, 46], [97]] true) 7 0 [[46, 46], [97]] = true ∧
      (∀ e ∈ [[46], [46, 46], [97]], (utf8 (cstr e)).length < MAX_PATH) ∧
      ∃ w', readdirNames (exampleNative [46] [[46, 46], [97]] true) 1 4 (openedWorld [46]) =
          some ([some (entryBuffer [46]), some (entryBuffer [46, 46]),
                 some (entryBuffer [97]), none], w') ∧
        w'.errno = (openedWorld [46]).errno :=
  ⟨rfl, by decide, by decide, by decide,
   readdir_enumerates (exampleNative [46] [[46, 46], [97]] true) [46] World.init 1
     (openedWorld [46]) [46] [[46, 46], [97]] rfl (by decide) rfl (by decide) (by decide)⟩

/-- Counterexample to C1 as stated: the directory yields "." and then a name of
87 CJK characters and `ERROR_NO_MORE_FILES`; `opendir` succeeds, and the calls
of `readdir` do not all return: the second one aborts on its assertion, the
conversion of the name needing 262 bytes. -/
theorem readdir_enumerates_long_name :
    ∃ p w0, opendir (exampleNative [46] [longName] true) (some [46]) World.init = some (p, w0) ∧
      p ≠ NULL ∧ (findFirst (exampleNative [46] [longName] true) [46]).name = [46] ∧
      yields (exampleNative [46] [longName] true)
        (findFirst (exampleNative [46] [longName] true) [46]).handle 0 [longName] = true ∧
      readdirNames (exampleNative [46] [longName] true) p 3 w0 = none :=
  ⟨1, _, rfl, by decide, rfl, by decide, by rfl⟩

/-- Counterexample to C2 as stated: on the empty path `opendir` returns `NULL`
with `errno` set to `ENOENT`, which is not `EINVAL`. -/
theorem opendir_empty_path_not_EINVAL :
    ∃ w', opendir (exampleNative [46] [] true) (some []) World.init = some (NULL, w') ∧
      w'.errno = ENOENT ∧ w'.errno ≠ EINVAL :=
  ⟨_, rfl, rfl, by decide⟩

/-- Claim C2 (amended): for the empty-string path `opendir` returns `NULL` and
sets `errno` to `ENOENT`; nothing else of the state changes, so it allocates
nothing and calls no native function. -/
theorem opendir_empty_path (env : Native) (path : List Nat) (w : World)
    (hempty : cstr path = []) :
    opendir env (some path) w = some (NULL, { w with errno := ENOENT }) :=
  opendir_empty_eq env path w hempty

/-- Witness of C2: the empty path on a fresh process. -/
theorem opendir_empty_path_witness :
    cstr [] = [] ∧
      opendir (exampleNative [46] [] true) (some []) World.init =
        some (NULL, { World.init with errno := ENOENT }) :=
  ⟨rfl, opendir_empty_path (exampleNative [46] [] true) [] World.init rfl⟩

/-- Claim C3: for a non-empty path, `opendir` returns `NULL` with `errno` set to
`ENAMETOOLONG`, having allocated nothing and called no function, exactly when
the path is at least 258 bytes long (so a path of 257 bytes passes the check). -/
theorem opendir_name_too_long (env : Native) (path : List Nat) (w : World)
    (hne : cstr path ≠ []) :
    (∃ w', opendir env (some path) w = some (NULL, w') ∧ w'.errno = ENAMETOOLONG ∧
        w'.calls = w.calls ∧ w'.dirs = w.dirs ∧ w'.brk = w.brk) ↔ 258 ≤ strlen path := by
  constructor
  · rintro ⟨w', h, -, hc, -⟩
    by_contra hlt
    obtain ⟨l, hl⟩ := opendir_calls_grow env path w hne (by omega) NULL w' h
    rw [hc] at hl
    simpa using congrArg List.length hl
  · intro h
    exact ⟨{ w with errno := ENAMETOOLONG }, opendir_too_long_eq env path w hne h,
      rfl, rfl, rfl, rfl⟩

/-- Witness of C3: a path of 258 letters and a path of 257 letters. -/
theorem opendir_name_too_long_witness :
    (cstr (List.replicate 258 65) ≠ [] ∧
      ((∃ w', opendir (exampleNative [46] [] true) (some (List.replicate 258 65)) World.init =
            some (NULL, w') ∧ w'.errno = ENAMETOOLONG ∧
          w'.calls = World.init.calls ∧ w'.dirs = World.init.dirs ∧
          w'.brk = World.init.brk) ↔ 258 ≤ strlen (List.replicate 258 65))) ∧
    (cstr (List.replicate 257 65) ≠ [] ∧
      ((∃ w', opendir (exampleNative [46] [] true) (some (List.replicate 257 65)) World.init =
            some (NULL, w') ∧ w'.errno = ENAMETOOLONG ∧
          w'.calls = World.init.calls ∧ w'.dirs = World.init.dirs ∧
          w'.brk = World.init.brk) ↔ 258 ≤ strlen (List.replicate 257 65))) :=
  ⟨⟨by decide, opendir_name_too_long (exampleNative [46] [] true) (List.replicate 258 65)
      World.init (by decide)⟩,
   ⟨by decide, opendir_name_too_long (exampleNative [46] [] true) (List.replicate 257 65)
      World.init (by decide)⟩⟩

/-- Claim C4: for a non-empty path whose pattern fits and converts, when
`FindFirstFileW` returns `INVALID_HANDLE_VALUE`, `opendir` returns `NULL`, with
`errno` set to `ENOENT` if the native error is `ERROR_FILE_NOT_FOUND` or
`ERROR_PATH_NOT_FOUND` and to `ENOSYS` for any other native error; the stream
object it had allocated is freed. -/
theorem opendir_find_first_fails (env : Native) (path : List Nat) (w : World)
    (hne : cstr path ≠ []) (hfit : strlen path < 258)
    (hconv : 1 ≤ (convertedPattern env path).ret ∧
      (convertedPattern env path).ret ≤ (MAX_PATH : Int))
    (hfail : (findFirst env path).handle = INVALID_HANDLE_VALUE) :
    ∃ w', opendir env (some path) w = some (NULL, w') ∧
      ((findFirst env path).err = ERROR_FILE_NOT_FOUND ∨
          (findFirst env path).err = ERROR_PATH_NOT_FOUND → w'.errno = ENOENT) ∧
      (¬ ((findFirst env path).err = ERROR_FILE_NOT_FOUND ∨
          (findFirst env path).err = ERROR_PATH_NOT_FOUND) → w'.errno = ENOSYS) ∧
      w'.dirs (w.brk + 1) = none := by
  have hc : ¬ ((convertedPattern env path).ret < 1 ∨
      (convertedPattern env path).ret > (MAX_PATH : Int)) := by
    omega
  rw [opendir_unfold env path w hne hfit]
  simp only [convertedPattern, findFirst] at hc hfail ⊢
  simp only [hc, hfail, if_true, if_false, opendir_fail, calloc_DIR, NULL]
  refine ⟨_, rfl, ?_, ?_, ?_⟩
  · intro h
    simp [GetLastError, SetLastError, free_DIR, h]
  · intro h
    simp [GetLastError, SetLastError, free_DIR, h]
  · simp [GetLastError, SetLastError, free_DIR]

/-- Witness of C4: the path "no" on a native side where the search fails with
`ERROR_PATH_NOT_FOUND`. -/
theorem opendir_find_first_fails_witness :
    cstr [110, 111] ≠ [] ∧ strlen [110, 111] < 258 ∧
      (findFirst (missingNative ERROR_PATH_NOT_FOUND) [110, 111]).handle =
        INVALID_HANDLE_VALUE ∧
      ∃ w', opendir (missingNative ERROR_PATH_NOT_FOUND) (some [110, 111]) World.init =
          some (NULL, w') ∧
        ((findFirst (missingNative ERROR_PATH_NOT_FOUND) [110, 111]).err =
              ERROR_FILE_NOT_FOUND ∨
            (findFirst (missingNative ERROR_PATH_NOT_FOUND) [110, 111]).err =
              ERROR_PATH_NOT_FOUND → w'.errno = ENOENT) ∧
        (¬ ((findFirst (missingNative ERROR_PATH_NOT_FOUND) [110, 111]).err =
              ERROR_FILE_NOT_FOUND ∨
            (findFirst (missingNative ERROR_PATH_NOT_FOUND) [110, 111]).err =
              ERROR_PATH_NOT_FOUND) → w'.errno = ENOSYS) ∧
        w'.dirs (World.init.brk + 1) = none :=
  ⟨by decide, by decide, rfl,
   opendir_find_first_fails (missingNative ERROR_PATH_NOT_FOUND) [110, 111] World.init
     (by decide) (by decide) (by decide) rfl⟩

/-- Claim C5: when the entry a `readdir` call surfaces (the one captured at
open time on the first call, the one `FindNextFileW` produces on a later call)
has an ASCII name `e` of fewer than `MAX_PATH` units, the call returns an entry
whose `d_name` is `e`, a NUL, and NUL bytes up to the end of the array, whatever
the reused buffer held before. -/
theorem readdir_ascii_name (env : Native) (dirp : Nat) (w : World) (d : DIR)
    (e old : List Nat)
    (hp : dirp ≠ NULL) (hd : w.dirs dirp = some d)
    (hascii : ∀ u ∈ e, u ≠ 0 ∧ u < 128) (hlen : e.length < MAX_PATH)
    (hsurf : (d.dirent = NULL ∧ cstr d.data = e) ∨
      (d.dirent ≠ NULL ∧ w.dirents d.dirent = some old ∧
        (env.FindNextFileW d.hFind (w.cursor d.hFind)).ok = true ∧
        cstr (env.FindNextFileW d.hFind (w.cursor d.hFind)).name = e)) :
    ∃ q w', readdir env dirp w = some (q, w') ∧ q ≠ NULL ∧
      w'.dirents q = some (e ++ 0 :: List.replicate (MAX_PATH - 1 - e.length) 0) ∧
      (d.dirent ≠ NULL → q = d.dirent) := by
  rcases hsurf with ⟨hq, hname⟩ | ⟨hq, hb, hok, hname⟩
  · have ha : ∀ u ∈ cstr d.data, u < 128 := by
      rw [hname]; exact fun u hu => (hascii u hu).2
    have hfit : (utf8 (cstr d.data)).length < MAX_PATH := by
      rw [utf8_ascii _ ha, hname]; exact hlen
    refine ⟨_, _, readdir_first env dirp w d hp hd hq hfit, by simp [NULL], ?_,
      fun h => absurd hq h⟩
    rw [← hname, ← entryBuffer_ascii d.data ha (by rw [hname]; exact hlen)]
    simp
  · have ha : ∀ u ∈ cstr (env.FindNextFileW d.hFind (w.cursor d.hFind)).name, u < 128 := by
      rw [hname]; exact fun u hu => (hascii u hu).2
    have hfit : (utf8 (cstr (env.FindNextFileW d.hFind (w.cursor d.hFind)).name)).length
        < MAX_PATH := by
      rw [utf8_ascii _ ha, hname]; exact hlen
    refine ⟨_, _, readdir_later env dirp w d old hp hd hq hb hok hfit, hq, ?_, fun _ => rfl⟩
    rw [← hname, ← entryBuffer_ascii _ ha (by rw [hname]; exact hlen)]
    simp

/-- Witness of C5: the stream has surfaced "longer" and the next native entry
is "a"; the reused buffer then holds "a" and 259 NUL bytes. -/
theorem readdir_ascii_name_witness :
    (surfacedWorld [108, 111, 110, 103, 101, 114]).dirs 1 =
        some { hFind := 7, data := [108, 111, 110, 103, 101, 114], dirent := 2 } ∧
      (surfacedWorld [108, 111, 110, 103, 101, 114]).dirents 2 =
        some (entryBuffer [108, 111, 110, 103, 101, 114]) ∧
      (∀ u ∈ [97], u ≠ 0 ∧ u < 128) ∧
      ∃ q w', readdir (exampleNative [108, 111, 110, 103, 101, 114] [[97]] true) 1
            (surfacedWorld [108, 111, 110, 103, 101, 114]) = some (q, w') ∧ q ≠ NULL ∧
        w'.dirents q = some ([97] ++ 0 :: List.replicate (MAX_PATH - 1 - [97].length) 0) ∧
        ((2 : Nat) ≠ NULL → q = 2) :=
  ⟨rfl, rfl, by decide,
   readdir_ascii_name (exampleNative [108, 111, 110, 103, 101, 114] [[97]] true) 1
     (surfacedWorld [108, 111, 110, 103, 101, 114])
     { hFind := 7, data := [108, 111, 110, 103, 101, 114], dirent := 2 } [97]
     (entryBuffer [108, 111, 110, 103, 101, 114])
     (by decide) rfl (by decide) (by decide)
     (Or.inr ⟨by decide, rfl, rfl, rfl⟩)⟩

/-- Claim C6: on a live stream `closedir` returns 0 exactly when `FindClose`
succeeds, and returns -1 with `errno` set to `ENOSYS` exactly when `FindClose`
fails; when `FindClose` succeeds `errno` is left as it was. -/
theorem closedir_result (env : Native) (dirp : Nat) (w : World) (d : DIR)
    (hp : dirp ≠ NULL) (hd : w.dirs dirp = some d) :
    ∃ r w', closedir env dirp w = some (r, w') ∧
      (r = 0 ↔ (env.FindClose d.hFind).ok = true) ∧
      ((r = -1 ∧ w'.errno = ENOSYS) ↔ (env.FindClose d.hFind).ok = false) ∧
      ((env.FindClose d.hFind).ok = true → w'.errno = w.errno) := by
  unfold closedir
  rw [if_neg hp, hd]
  cases hok : (env.FindClose d.hFind).ok
  · simp only [hok, if_true]
    exact ⟨_, _, rfl, by simp, by simp, by simp⟩
  · simp only [hok, Bool.true_eq_false, if_false]
    refine ⟨_, _, rfl, by simp, by simp, ?_⟩
    intro _
    by_cases hq : d.dirent = NULL <;> simp [hq, free_DIR, free_dirent]

/-- Witness of C6: closing the stream of `surfacedWorld`, whose handle can be
released. -/
theorem closedir_result_witness :
    (1 : Nat) ≠ NULL ∧
      (surfacedWorld [46]).dirs 1 = some { hFind := 7, data := [46], dirent := 2 } ∧
      ∃ r w', closedir (exampleNative [46] [] true) 1 (surfacedWorld [46]) = some (r, w') ∧
        (r = 0 ↔ ((exampleNative [46] [] true).FindClose 7).ok = true) ∧
        ((r = -1 ∧ w'.errno = ENOSYS) ↔
          ((exampleNative [46] [] true).FindClose 7).ok = false) ∧
        (((exampleNative [46] [] true).FindClose 7).ok = true →
          w'.errno = (surfacedWorld [46]).errno) :=
  ⟨by decide, rfl,
   closedir_result (exampleNative [46] [] true) 1 (surfacedWorld [46])
     { hFind := 7, data := [46], dirent := 2 } (by decide) rfl⟩

/-- Claim C7, evaluated on the code: in a session on a directory whose handle
cannot be released, `closedir` returns -1 with `errno` set to `ENOSYS`, and
afterwards the stream object (address 1) and its entry buffer (address 2) are
still live: `free` has not been called at all. -/
theorem closedir_failure_leaks :
    ∃ w', leakingSession = some (-1, w') ∧ w'.errno = ENOSYS ∧
      w'.dirs 1 = some { hFind := 7, data := [46], dirent := 2 } ∧
      w'.dirents 2 = some (entryBuffer [46]) ∧
      w'.calls =
        [Call.calloc 1, Call.SetLastError 0, Call.MultiByteToWideChar [46, 92, 42],
         Call.FindFirstFileW [46, 92, 42], Call.calloc 2, Call.SetLastError 0,
         Call.WideCharToMultiByte [46], Call.FindClose 7] :=
  ⟨_, rfl, rfl, rfl, by rfl, rfl⟩

/-- Claim C8 (amended): after a successful `opendir` the stream holds the
entry `FindFirstFileW` captured and its entry buffer is unallocated. The first
`readdir` makes no `FindNextFileW` call, whether it returns or aborts: the
calls it makes are `calloc`, `SetLastError` and `WideCharToMultiByte`; when the
UTF-8 conversion of the captured name is shorter than `MAX_PATH` bytes it
returns that entry in the newly allocated buffer. Every `readdir` on the stream
once the buffer is allocated makes exactly one `FindNextFileW` call, its first
call, whether the advance fails or succeeds and whether `readdir` returns or
aborts; when the advance fails it returns `NULL` and the stream keeps its
buffer; when the advance succeeds and the conversion of the new name is shorter
than `MAX_PATH` bytes it returns the new entry in the same buffer, no
allocation made. Here `readdir_traced` is `readdir` with the state kept on
abort: for their callers the two give the same result. -/
theorem readdir_position (env : Native) (path : List Nat) (w : World) (p : Nat) (w0 : World)
    (hopen : opendir env (some path) w = some (p, w0)) (hp : p ≠ NULL) :
    w0.dirs p = some { hFind := (findFirst env path).handle
                       data := (findFirst env path).name
                       dirent := NULL } ∧
    (∀ w2 : World, (readdir_traced env p w2).toOption = readdir env p w2) ∧
    (readdir_traced env p w0).world.calls = w0.calls ++
      [Call.calloc (w0.brk + 1), Call.SetLastError 0,
       Call.WideCharToMultiByte (findFirst env path).name] ∧
    ((utf8 (cstr (findFirst env path).name)).length < MAX_PATH →
      ∃ q w1, readdir env p w0 = some (q, w1) ∧ q ≠ NULL ∧
        w1.calls = w0.calls ++
          [Call.calloc q, Call.SetLastError 0,
           Call.WideCharToMultiByte (findFirst env path).name] ∧
        w1.dirents q = some (entryBuffer (findFirst env path).name) ∧
        w1.dirs p = some { hFind := (findFirst env path).handle
                           data := (findFirst env path).name
                           dirent := q }) ∧
    (∀ (w2 : World) (d : DIR) (old : List Nat),
      w2.dirs p = some d → d.dirent ≠ NULL → w2.dirents d.dirent = some old →
      (readdir_traced env p w2).world.calls =
        w2.calls ++ Call.FindNextFileW d.hFind ::
          (if (env.FindNextFileW d.hFind (w2.cursor d.hFind)).ok = true then
             [Call.SetLastError 0,
              Call.WideCharToMultiByte (env.FindNextFileW d.hFind (w2.cursor d.hFind)).name]
           else [Call.GetLastError]) ∧
      ((env.FindNextFileW d.hFind (w2.cursor d.hFind)).ok = false →
        ∃ w3, readdir env p w2 = some (NULL, w3) ∧
          w3.calls = w2.calls ++ [Call.FindNextFileW d.hFind, Call.GetLastError] ∧
          w3.dirs p = some d ∧ w3.dirents = w2.dirents) ∧
      ((env.FindNextFileW d.hFind (w2.cursor d.hFind)).ok = true →
        (utf8 (cstr (env.FindNextFileW d.hFind (w2.cursor d.hFind)).name)).length < MAX_PATH →
        ∃ w3, readdir env p w2 = some (d.dirent, w3) ∧
          w3.calls = w2.calls ++
            [Call.FindNextFileW d.hFind, Call.SetLastError 0,
             Call.WideCharToMultiByte (env.FindNextFileW d.hFind (w2.cursor d.hFind)).name] ∧
          w3.dirents d.dirent =
            some (entryBuffer (env.FindNextFileW d.hFind (w2.cursor d.hFind)).name) ∧
          w3.dirs p =
            some { d with data := (env.FindNextFileW d.hFind (w2.cursor d.hFind)).name })) := by
  obtain ⟨hpe, -, hw0⟩ := opendir_success_inv env path w p w0 hopen hp
  have hd : w0.dirs p = some { hFind := (findFirst env path).handle
                               data := (findFirst env path).name
                               dirent := NULL } := by
    rw [hw0, hpe]; simp
  refine ⟨hd, fun w2 => readdir_traced_toOption env p w2,
    readdir_traced_first_calls env p w0 _ hp hd rfl, ?_, ?_⟩
  · intro hfit
    refine ⟨_, _, readdir_first env p w0 _ hp hd rfl hfit, by simp [NULL], rfl, by simp,
      by simp⟩
  · intro w2 d old hd2 hq hb
    refine ⟨readdir_traced_later_calls env p w2 d old hp hd2 hq hb, ?_, ?_⟩
    · intro hfail
      exact ⟨_, readdir_exhausted env p w2 d hp hd2 hq hfail, rfl, hd2, rfl⟩
    · intro hok hfit
      exact ⟨_, readdir_later env p w2 d old hp hd2 hq hb hok hfit, rfl, by simp, by simp⟩

/-- Witness of C8: opening "." on a directory that yields "." and then "a",
where the first `readdir` returns "."; and opening "." on a directory whose
first entry has a name of 87 CJK characters, where the first `readdir` aborts
after `calloc`, `SetLastError` and `WideCharToMultiByte`, no `FindNextFileW`
call made. -/
theorem readdir_position_witness :
    (opendir (exampleNative [46] [[97]] true) (some [46]) World.init =
        some (1, openedWorld [46]) ∧
      (1 : Nat) ≠ NULL ∧
      (utf8 (cstr (findFirst (exampleNative [46] [[97]] true) [46]).name)).length < MAX_PATH ∧
      ∃ q w1, readdir (exampleNative [46] [[97]] true) 1 (openedWorld [46]) = some (q, w1) ∧
        q ≠ NULL ∧
        w1.calls = (openedWorld [46]).calls ++
          [Call.calloc q, Call.SetLastError 0,
           Call.WideCharToMultiByte (findFirst (exampleNative [46] [[97]] true) [46]).name] ∧
        w1.dirents q = some (entryBuffer (findFirst (exampleNative [46] [[97]] true) [46]).name) ∧
        w1.dirs 1 = some { hFind := (findFirst (exampleNative [46] [[97]] true) [46]).handle
                           data := (findFirst (exampleNative [46] [[97]] true) [46]).name
                           dirent := q }) ∧
    (opendir (exampleNative longName [] true) (some [46]) World.init =
        some (1, openedWorld longName) ∧
      (1 : Nat) ≠ NULL ∧
      (readdir_traced (exampleNative longName [] true) 1 (openedWorld longName)).toOption =
        none ∧
      (readdir_traced (exampleNative longName [] true) 1 (openedWorld longName)).world.calls =
        (openedWorld longName).calls ++
          [Call.calloc ((openedWorld longName).brk + 1), Call.SetLastError 0,
           Call.WideCharToMultiByte (findFirst (exampleNative longName [] true) [46]).name]) :=
  ⟨⟨rfl, by decide, by decide,
    (readdir_position (exampleNative [46] [[97]] true) [46] World.init 1 (openedWorld [46])
      rfl (by decide)).2.2.2.1 (by decide)⟩,
   ⟨rfl, by decide, by rfl,
    (readdir_position (exampleNative longName [] true) [46] World.init 1 (openedWorld longName)
      rfl (by decide)).2.2.1⟩⟩

/-- Counterexample to C8 as stated: the entry `FindFirstFileW` captures has a
name of 87 CJK characters; `opendir` succeeds and holds that entry, and the
first `readdir` does not return it: it aborts on its assertion. -/
theorem first_readdir_long_name :
    ∃ p w0, opendir (exampleNative longName [] true) (some [46]) World.init = some (p, w0) ∧
      p ≠ NULL ∧
      w0.dirs p = some { hFind := 7, data := longName, dirent := NULL } ∧
      (utf8 (cstr longName)).length = 261 ∧
      readdir (exampleNative longName [] true) p w0 = none :=
  ⟨1, _, rfl, by decide, rfl, by decide, by rfl⟩

/-- Claim C9: on a `readdir` call after the first (the entry buffer is
allocated), when `FindNextFileW` fails the call returns `NULL`; `errno` is
unchanged if the native error is `ERROR_NO_MORE_FILES` and is set to `ENOSYS`
otherwise; in both cases the entry buffers keep their contents. -/
theorem readdir_next_fails (env : Native) (dirp : Nat) (w : World) (d : DIR)
    (hp : dirp ≠ NULL) (hd : w.dirs dirp = some d) (hlater : d.dirent ≠ NULL)
    (hfail : (env.FindNextFileW d.hFind (w.cursor d.hFind)).ok = false) :
    ∃ w', readdir env dirp w = some (NULL, w') ∧
      ((env.FindNextFileW d.hFind (w.cursor d.hFind)).err = ERROR_NO_MORE_FILES →
        w'.errno = w.errno) ∧
      ((env.FindNextFileW d.hFind (w.cursor d.hFind)).err ≠ ERROR_NO_MORE_FILES →
        w'.errno = ENOSYS) ∧
      w'.dirents = w.dirents ∧ w'.dirs = w.dirs := by
  refine ⟨_, readdir_exhausted env dirp w d hp hd hlater hfail, ?_, ?_, rfl, rfl⟩
  · intro h
    simp [h]
  · intro h
    simp [h]

/-- Witness of C9: the stream of `surfacedWorld` on a directory with nothing
more to yield. -/
theorem readdir_next_fails_witness :
    (1 : Nat) ≠ NULL ∧
      (surfacedWorld [46]).dirs 1 = some { hFind := 7, data := [46], dirent := 2 } ∧
      (2 : Nat) ≠ NULL ∧
      ((exampleNative [46] [] true).FindNextFileW 7 ((surfacedWorld [46]).cursor 7)).ok = false ∧
      ∃ w', readdir (exampleNative [46] [] true) 1 (surfacedWorld [46]) = some (NULL, w') ∧
        (((exampleNative [46] [] true).FindNextFileW 7 ((surfacedWorld [46]).cursor 7)).err =
            ERROR_NO_MORE_FILES → w'.errno = (surfacedWorld [46]).errno) ∧
        (((exampleNative [46] [] true).FindNextFileW 7 ((surfacedWorld [46]).cursor 7)).err ≠
            ERROR_NO_MORE_FILES → w'.errno = ENOSYS) ∧
        w'.dirents = (surfacedWorld [46]).dirents ∧ w'.dirs = (surfacedWorld [46]).dirs :=
  ⟨by decide, rfl, by decide, rfl,
   readdir_next_fails (exampleNative [46] [] true) 1 (surfacedWorld [46])
     { hFind := 7, data := [46], dirent := 2 } (by decide) rfl (by decide) rfl⟩

/-- Claim C10: for a non-empty path whose pattern fits, when the conversion of
the pattern fails `opendir` returns `NULL`; the calls it has made are `calloc`,
`SetLastError`, `MultiByteToWideChar`, `GetLastError` and `free` of the stream
object, so `FindFirstFileW` is not called and the stream object is released;
`errno` is `ENAMETOOLONG` for `ERROR_INSUFFICIENT_BUFFER`, `EILSEQ` for
`ERROR_NO_UNICODE_TRANSLATION`, `EINVAL` for `ERROR_INVALID_FLAGS` and
`ERROR_INVALID_PARAMETER`, and `ENOSYS` for every other native error. -/
theorem opendir_conversion_fails (env : Native) (path : List Nat) (w : World)
    (hne : cstr path ≠ []) (hfit : strlen path < 258)
    (hconv : (convertedPattern env path).ret < 1 ∨
      (convertedPattern env path).ret > (MAX_PATH : Int)) :
    ∃ w', opendir env (some path) w = some (NULL, w') ∧
      w'.calls = w.calls ++
        [Call.calloc (w.brk + 1), Call.SetLastError 0,
         Call.MultiByteToWideChar (snprintf MAX_PATH path).2, Call.GetLastError,
         Call.free (w.brk + 1)] ∧
      w'.dirs (w.brk + 1) = none ∧
      ((convertedPattern env path).err = ERROR_INSUFFICIENT_BUFFER → w'.errno = ENAMETOOLONG) ∧
      ((convertedPattern env path).err = ERROR_NO_UNICODE_TRANSLATION → w'.errno = EILSEQ) ∧
      ((convertedPattern env path).err = ERROR_INVALID_FLAGS ∨
          (convertedPattern env path).err = ERROR_INVALID_PARAMETER → w'.errno = EINVAL) ∧
      ((convertedPattern env path).err ≠ ERROR_INSUFFICIENT_BUFFER →
        (convertedPattern env path).err ≠ ERROR_NO_UNICODE_TRANSLATION →
        (convertedPattern env path).err ≠ ERROR_INVALID_FLAGS →
        (convertedPattern env path).err ≠ ERROR_INVALID_PARAMETER → w'.errno = ENOSYS) := by
  rw [opendir_unfold env path w hne hfit]
  simp only [convertedPattern] at hconv ⊢
  simp only [hconv, if_true, opendir_fail, calloc_DIR, NULL]
  refine ⟨_, rfl, ?_, ?_, ?_, ?_, ?_, ?_⟩
  · simp [GetLastError, SetLastError, free_DIR]
  · simp [GetLastError, SetLastError, free_DIR]
  · intro h
    simp [GetLastError, SetLastError, free_DIR, h]
  · intro h
    simp [GetLastError, SetLastError, free_DIR, h, ERROR_NO_UNICODE_TRANSLATION,
      ERROR_INSUFFICIENT_BUFFER, ERROR_INVALID_FLAGS, ERROR_INVALID_PARAMETER]
  · intro h
    rcases h with h | h <;>
    simp [GetLastError, SetLastError, free_DIR, h, ERROR_NO_UNICODE_TRANSLATION,
      ERROR_INSUFFICIENT_BUFFER, ERROR_INVALID_FLAGS, ERROR_INVALID_PARAMETER]
  · intro h1 h2 h3 h4
    simp [GetLastError, SetLastError, free_DIR, h1, h2, h3, h4]

/-- Witness of C10: a path holding the byte 255, which is not UTF-8, on a
native side whose conversion reports `ERROR_NO_UNICODE_TRANSLATION`. -/
theorem opendir_conversion_fails_witness :
    cstr [255] ≠ [] ∧ strlen [255] < 258 ∧
      ((convertedPattern (unconvertibleNative ERROR_NO_UNICODE_TRANSLATION) [255]).ret < 1 ∨
        (convertedPattern (unconvertibleNative ERROR_NO_UNICODE_TRANSLATION) [255]).ret >
          (MAX_PATH : Int)) ∧
      ∃ w', opendir (unconvertibleNative ERROR_NO_UNICODE_TRANSLATION) (some [255]) World.init =
          some (NULL, w') ∧ w'.errno = EILSEQ ∧
        w'.calls = [Call.calloc 1, Call.SetLastError 0, Call.MultiByteToWideChar [255, 92, 42],
          Call.GetLastError, Call.free 1] ∧
        w'.dirs 1 = none :=
  ⟨by decide, by decide, by decide,
   (opendir_conversion_fails (unconvertibleNative ERROR_NO_UNICODE_TRANSLATION) [255]
      World.init (by decide) (by decide) (by decide)).imp
     fun _ h => ⟨h.1, h.2.2.2.2.1 rfl, h.2.1, h.2.2.1⟩⟩

end Minirent
